import Mathlib

/-!
Shallow embedding of the MyCardGame backend core: the SQLAlchemy models
(`app/models/card.py`), the pydantic schemas (`app/schemas/cardtype.py`,
`app/schemas/card.py`), the repositories (`app/repositories/cardtype.py`,
`app/repositories/card.py`) and the services (`app/services/cardtype.py`,
`app/services/card.py`), together with the create routes of
`app/routes/cardtype.py` and `app/routes/card.py` (which parse the request
body through the pydantic input schema before calling the service).

The storage engine is SQLite (`app/settings.py`: `sqlite:///./shop.db`),
created by `app/database.py` with plain `create_engine` and no
`foreign_keys` pragma: SQLite therefore does not enforce the
`cards.card_type_id` foreign key, while the unique indexes on the two
`name` columns are enforced.  The database state is the contents of the
two tables; ids are assigned the SQLite way, one more than the largest
existing id (and at least 1).
-/

/-- Row of the `card_types` table (`app/models/card.py`, class `CardType`). -/
structure CardType where
  id : Int
  name : String
  description : String
  image_url : Option String
  deriving Repr, DecidableEq

/-- Row of the `cards` table (`app/models/card.py`, class `Card`). -/
structure Card where
  id : Int
  name : String
  description : String
  image_url : Option String
  mana_price : Int
  hp : Int
  attack : Int
  card_type_id : Int
  deriving Repr, DecidableEq

/-- An ORM `Card` instance as produced by a query carrying
`joinedload(Card.card_type)`: the row together with its `card_type`
relationship, resolved at read time (`none` when the foreign key dangles). -/
structure CardLoaded where
  card : Card
  card_type : Option CardType
  deriving Repr, DecidableEq

/-- The SQLite database state: the contents of the two tables. -/
structure DB where
  card_types : List CardType
  cards : List Card
  deriving Repr, DecidableEq

/-- SQLite assigns a fresh INTEGER PRIMARY KEY as one more than the largest
existing id, and at least 1. -/
def nextId (ids : List Int) : Int := ids.foldr max 0 + 1

/-- Storage-layer failure of an INSERT: the unique index on `name` was hit.
(The foreign key is not enforced, see the header comment.) -/
inductive DBError where
  | integrityError
  deriving Repr, DecidableEq

/-- The `CardTypeCreate` pydantic input schema
(`app/schemas/cardtype.py`, `CardTypeBase`): all fields after a
successful validation. -/
structure CardTypeCreate where
  name : String
  description : String
  image_url : Option String
  deriving Repr, DecidableEq

/-- Pydantic validation of a `CardTypeCreate` body
(`app/schemas/cardtype.py`, `CardTypeBase`): `name` must have 5 to 100
characters and `description` 5 to 500; `image_url` is optional and
unconstrained. -/
def CardTypeCreate.validate (name description : String)
    (image_url : Option String) : Option CardTypeCreate :=
  if 5 ≤ name.length ∧ name.length ≤ 100 ∧
      5 ≤ description.length ∧ description.length ≤ 500 then
    some ⟨name, description, image_url⟩
  else none

/-- The `CardCreate` pydantic input schema (`app/schemas/card.py`,
`CardBase`): all fields after a successful validation. -/
structure CardCreate where
  name : String
  description : String
  mana_price : Int
  image_url : Option String
  hp : Int
  attack : Int
  card_type_id : Int
  deriving Repr, DecidableEq

/-- Pydantic validation of a `CardCreate` body (`app/schemas/card.py`,
`CardBase`): `name` 5 to 100 characters, `description` 2 to 500,
`mana_price` in 0 to 10, `hp` in 0 to 100, `attack` in 0 to 100;
`image_url` optional and `card_type_id` unconstrained. -/
def CardCreate.validate (name description : String) (mana_price : Int)
    (image_url : Option String) (hp attack card_type_id : Int) :
    Option CardCreate :=
  if 5 ≤ name.length ∧ name.length ≤ 100 ∧
      2 ≤ description.length ∧ description.length ≤ 500 ∧
      0 ≤ mana_price ∧ mana_price ≤ 10 ∧
      0 ≤ hp ∧ hp ≤ 100 ∧
      0 ≤ attack ∧ attack ≤ 100 then
    some ⟨name, description, mana_price, image_url, hp, attack, card_type_id⟩
  else none

/-- `CardTypeRepository.get_all`: `self.db.query(CardType).all()`. -/
def CardTypeRepository.get_all (db : DB) : List CardType :=
  db.card_types

/-- `CardTypeRepository.get_by_id`:
`query(CardType).filter(CardType.id == id).first()` — the first matching
row, `None` on a miss. -/
def CardTypeRepository.get_by_id (db : DB) (id : Int) : Option CardType :=
  (db.card_types.filter (fun ct => ct.id == id)).head?

/-- `CardTypeRepository.create_card_type`: builds a `CardType` from the
validated fields, inserts and commits.  The unique index on `name` makes
the commit fail with an integrity error on a duplicate name; otherwise the
row is appended with a fresh SQLite id. -/
def CardTypeRepository.create_card_type (db : DB) (card_type_data : CardTypeCreate) :
    Except DBError (CardType × DB) :=
  if db.card_types.any (fun ct => ct.name == card_type_data.name) then
    .error .integrityError
  else
    let new_card_type : CardType :=
      { id := nextId (db.card_types.map (fun ct => ct.id))
        name := card_type_data.name
        description := card_type_data.description
        image_url := card_type_data.image_url }
    .ok (new_card_type, { db with card_types := db.card_types ++ [new_card_type] })

/-- `joinedload(Card.card_type)`: the relationship is resolved from the
same state during the read itself (first `card_types` row whose id equals
the foreign key, `none` when the key dangles). -/
def resolve_card_type (db : DB) (card_type_id : Int) : Option CardType :=
  (db.card_types.filter (fun ct => ct.id == card_type_id)).head?

/-- `CardRepository.get_all`:
`query(Card).options(joinedload(Card.card_type)).all()`. -/
def CardRepository.get_all (db : DB) : List CardLoaded :=
  db.cards.map (fun c => ⟨c, resolve_card_type db c.card_type_id⟩)

/-- `CardRepository.get_by_card_type`: same query filtered by
`Card.card_type_id == cardtype_id`; the existence of the card type itself
is never checked. -/
def CardRepository.get_by_card_type (db : DB) (cardtype_id : Int) : List CardLoaded :=
  (db.cards.filter (fun c => c.card_type_id == cardtype_id)).map
    (fun c => ⟨c, resolve_card_type db c.card_type_id⟩)

/-- `CardRepository.get_by_id`: the joined query filtered by
`Card.id == id`, `.first()` — `None` on a miss, no exception. -/
def CardRepository.get_by_id (db : DB) (id : Int) : Option CardLoaded :=
  ((db.cards.filter (fun c => c.id == id)).head?).map
    (fun c => ⟨c, resolve_card_type db c.card_type_id⟩)

/-- `CardRepository.create_card`: builds a `Card` from the validated
fields, inserts and commits.  The unique index on `name` is enforced; the
foreign key `card_type_id` is NOT (the SQLite engine of `app/database.py`
never enables the `foreign_keys` pragma), so a dangling reference inserts
successfully. -/
def CardRepository.create_card (db : DB) (card_data : CardCreate) :
    Except DBError (Card × DB) :=
  if db.cards.any (fun c => c.name == card_data.name) then
    .error .integrityError
  else
    let new_card : Card :=
      { id := nextId (db.cards.map (fun c => c.id))
        name := card_data.name
        description := card_data.description
        image_url := card_data.image_url
        mana_price := card_data.mana_price
        hp := card_data.hp
        attack := card_data.attack
        card_type_id := card_data.card_type_id }
    .ok (new_card, { db with cards := db.cards ++ [new_card] })

/-- The `CardTypeResponse` output schema (`app/schemas/cardtype.py`):
the `CardTypeBase` fields plus the id — no card list field. -/
structure CardTypeResponse where
  name : String
  description : String
  image_url : Option String
  id : Int
  deriving Repr, DecidableEq

/-- `CardTypeResponse.model_validate` with `from_attributes=True`: reads
the declared fields off the ORM instance. -/
def CardTypeResponse.model_validate (ct : CardType) : CardTypeResponse :=
  ⟨ct.name, ct.description, ct.image_url, ct.id⟩

/-- The `CardTypeResponseList` envelope (`app/schemas/cardtype.py`). -/
structure CardTypeResponseList where
  card_types : List CardTypeResponse
  total : Nat
  deriving Repr, DecidableEq

/-- The `CardResponse` output schema (`app/schemas/card.py`): the
`CardBase` fields plus the id.  Its only trace of the card type is the
raw foreign key `card_type_id`; there is no nested `CardType` field. -/
structure CardResponse where
  name : String
  description : String
  mana_price : Int
  image_url : Option String
  hp : Int
  attack : Int
  card_type_id : Int
  id : Int
  deriving Repr, DecidableEq

/-- `CardResponse.model_validate` with `from_attributes=True`: reads the
declared fields off the ORM instance, which all live on the row; the
loaded `card_type` relationship is not among the declared fields and is
dropped.  On a joined-loaded instance it is applied to the row part. -/
def CardResponse.model_validate (c : Card) : CardResponse :=
  ⟨c.name, c.description, c.mana_price, c.image_url,
    c.hp, c.attack, c.card_type_id, c.id⟩

/-- Modelled from the spec: `CardResponseList` is imported by
`app/services/card.py` and `app/routes/card.py` but its definition is
missing from the sources (`app/schemas/card.py` does not declare it).
The spec says list-envelope schemas pair an ordered sequence of items
with an explicit total count field, and the call sites in the service
name the item field `products`. -/
structure CardResponseList where
  products : List CardResponse
  total : Nat
  deriving Repr, DecidableEq

/-- A service-level outcome: either an `HTTPException` raised by the
service itself, or a storage error that the service does not catch and
lets propagate. -/
inductive ServiceError where
  | httpException (status_code : Int) (detail : String)
  | storage (e : DBError)
  deriving Repr, DecidableEq

/-- `CardTypeService.get_card_types_all`: projects every repository row
through the output schema and wraps them with `total = len(items)`. -/
def CardTypeService.get_card_types_all (db : DB) : CardTypeResponseList :=
  let validated_cardtypes :=
    (CardTypeRepository.get_all db).map CardTypeResponse.model_validate
  ⟨validated_cardtypes, validated_cardtypes.length⟩

/-- `CardTypeService.get_card_type_by_id`: a repository miss (`None`,
which is falsy) raises `HTTPException(404)`; a hit is projected. -/
def CardTypeService.get_card_type_by_id (db : DB) (id : Int) :
    Except ServiceError CardTypeResponse :=
  match CardTypeRepository.get_by_id db id with
  | none => .error (.httpException 404 "Тип карты с таким id не найдена")
  | some card_type => .ok (CardTypeResponse.model_validate card_type)

/-- `CardTypeService.create_card_type`: calls the repository and projects
the result; there is no `try`/`except`, so a storage error propagates. -/
def CardTypeService.create_card_type (db : DB) (cardtype_data : CardTypeCreate) :
    Except ServiceError (CardTypeResponse × DB) :=
  match CardTypeRepository.create_card_type db cardtype_data with
  | .error e => .error (.storage e)
  | .ok (card_type, db2) => .ok (CardTypeResponse.model_validate card_type, db2)

/-- `CardService.get_cards_all`: projects every repository row and wraps
them with `total = len(items)`. -/
def CardService.get_cards_all (db : DB) : CardResponseList :=
  let validated_cards :=
    (CardRepository.get_all db).map (fun lc => CardResponse.model_validate lc.card)
  ⟨validated_cards, validated_cards.length⟩

/-- `CardService.get_card_by_id`: a repository miss raises
`HTTPException(404)`; a hit is projected. -/
def CardService.get_card_by_id (db : DB) (id : Int) :
    Except ServiceError CardResponse :=
  match CardRepository.get_by_id db id with
  | none => .error (.httpException 404 "Карта с таким id не найдена")
  | some card => .ok (CardResponse.model_validate card.card)

/-- `CardService.get_by_card_type`: projects the filtered repository rows
and wraps them with `total = len(items)`; no existence check on the card
type. -/
def CardService.get_by_card_type (db : DB) (cardtype_id : Int) : CardResponseList :=
  let validated_cards :=
    (CardRepository.get_by_card_type db cardtype_id).map
      (fun lc => CardResponse.model_validate lc.card)
  ⟨validated_cards, validated_cards.length⟩

/-- `CardService.create_card`: calls the repository and projects the
result; there is no `try`/`except`, so a storage error propagates. -/
def CardService.create_card (db : DB) (card_data : CardCreate) :
    Except ServiceError (CardResponse × DB) :=
  match CardRepository.create_card db card_data with
  | .error e => .error (.storage e)
  | .ok (card, db2) => .ok (CardResponse.model_validate card, db2)

/-- A transport-level outcome of a create route: pydantic rejection of the
request body (HTTP 422), an `HTTPException` raised by the service, or an
uncaught storage error surfacing as a generic internal server error. -/
inductive RouteError where
  | validationError
  | httpError (status_code : Int) (detail : String)
  | internalServerError (e : DBError)
  deriving Repr, DecidableEq

/-- How a service outcome surfaces at the transport boundary. -/
def liftServiceError : ServiceError → RouteError
  | .httpException c d => .httpError c d
  | .storage e => .internalServerError e

/-- The `POST /api/cardtypes/create` route: FastAPI parses the body
through `CardTypeCreate` (rejecting invalid bodies before the service is
ever constructed), then calls `CardTypeService.create_card_type`.
Returns the outcome together with the resulting database state. -/
def create_card_type_endpoint (db : DB) (name description : String)
    (image_url : Option String) : Except RouteError CardTypeResponse × DB :=
  match CardTypeCreate.validate name description image_url with
  | none => (.error .validationError, db)
  | some cardtype_data =>
    match CardTypeService.create_card_type db cardtype_data with
    | .error e => (.error (liftServiceError e), db)
    | .ok (r, db2) => (.ok r, db2)

/-- The `POST /api/cards/create` route: FastAPI parses the body through
`CardCreate` (rejecting invalid bodies before the service is ever
constructed), then calls `CardService.create_card`.  Returns the outcome
together with the resulting database state. -/
def create_card_endpoint (db : DB) (name description : String) (mana_price : Int)
    (image_url : Option String) (hp attack card_type_id : Int) :
    Except RouteError CardResponse × DB :=
  match CardCreate.validate name description mana_price image_url hp attack card_type_id with
  | none => (.error .validationError, db)
  | some card_data =>
    match CardService.create_card db card_data with
    | .error e => (.error (liftServiceError e), db)
    | .ok (r, db2) => (.ok r, db2)

/-! ## Helper lemmas -/

theorem le_foldr_max (l : List Int) (x : Int) (hx : x ∈ l) : x ≤ l.foldr max 0 := by
  induction l with
  | nil => cases hx
  | cons a t ih =>
    rcases List.mem_cons.mp hx with h | h
    · subst h; exact le_max_left _ _
    · exact le_trans (ih h) (le_max_right _ _)

theorem mem_ne_nextId (l : List Int) (x : Int) (hx : x ∈ l) : x ≠ nextId l := by
  intro h
  have hle := le_foldr_max l x hx
  simp only [nextId] at h
  omega

theorem mem_of_head?_eq_some {α : Type} {l : List α} {a : α}
    (h : l.head? = some a) : a ∈ l := by
  cases l with
  | nil => simp at h
  | cons b t =>
    simp only [List.head?_cons, Option.some.injEq] at h
    exact h ▸ List.mem_cons_self b t

theorem head?_filter_append_singleton {α : Type} (p : α → Bool) (l : List α) (a : α)
    (hl : ∀ b ∈ l, p b = false) (ha : p a = true) :
    ((l ++ [a]).filter p).head? = some a := by
  rw [List.filter_append, List.filter_eq_nil_iff.mpr (by simpa using hl)]
  simp [ha]

/-! ## Claims -/

/-- C1: the spec demands that creating a Card whose `card_type_id`
references no existing CardType fail with a distinguishable
InvalidReference outcome and persist nothing.  The code does neither: the
service wraps the repository call in no error handling, and the SQLite
engine is configured without the `foreign_keys` pragma, so on an empty
database the create request for "Flame Imp" with the dangling
`card_type_id = 999` succeeds and the row is persisted. -/
theorem create_card_invalid_reference_succeeds_and_persists :
    resolve_card_type { card_types := [], cards := [] } 999 = none ∧
    create_card_endpoint { card_types := [], cards := [] }
        "Flame Imp" "A small fiery nuisance" 2 none 30 40 999 =
      (.ok { name := "Flame Imp", description := "A small fiery nuisance",
             mana_price := 2, image_url := none, hp := 30, attack := 40,
             card_type_id := 999, id := 1 },
       { card_types := [],
         cards := [{ id := 1, name := "Flame Imp",
                     description := "A small fiery nuisance",
                     image_url := none, mana_price := 2, hp := 30, attack := 40,
                     card_type_id := 999 }] }) :=
  ⟨rfl, rfl⟩

/-- C2: for every storage state, each list_all operation (CardType service
and Card service) returns an envelope whose `total` equals the length of
its item sequence. -/
theorem list_all_total_eq_length (db : DB) :
    (CardTypeService.get_card_types_all db).total =
      (CardTypeService.get_card_types_all db).card_types.length ∧
    (CardService.get_cards_all db).total =
      (CardService.get_cards_all db).products.length :=
  ⟨rfl, rfl⟩

theorem create_card_type_fresh_ok (db : DB) (d : CardTypeCreate)
    (hfresh : ∀ ct ∈ db.card_types, ct.name ≠ d.name) :
    ∃ nct, CardTypeRepository.create_card_type db d =
        .ok (nct, { db with card_types := db.card_types ++ [nct] }) ∧
      nct.name = d.name ∧ nct.description = d.description ∧
      nct.image_url = d.image_url ∧
      (∀ ct ∈ db.card_types, ct.id ≠ nct.id) ∧
      CardTypeRepository.get_by_id
          { db with card_types := db.card_types ++ [nct] } nct.id = some nct := by
  have hany : db.card_types.any (fun ct => ct.name == d.name) = false := by
    rw [List.any_eq_false]
    intro ct hct
    simpa using hfresh ct hct
  refine ⟨⟨nextId (db.card_types.map (fun ct => ct.id)), d.name, d.description, d.image_url⟩,
    ?_, rfl, rfl, rfl,
    fun ct hct => mem_ne_nextId _ _ (List.mem_map_of_mem _ hct), ?_⟩
  · simp [CardTypeRepository.create_card_type, hany]
  · have hhead := head?_filter_append_singleton
      (fun ct => ct.id == nextId (db.card_types.map (fun ct => ct.id)))
      db.card_types
      ⟨nextId (db.card_types.map (fun ct => ct.id)), d.name, d.description, d.image_url⟩
      (fun ct hct => by
        simpa using mem_ne_nextId _ _ (List.mem_map_of_mem (fun ct => ct.id) hct))
      (by simp)
    simpa [CardTypeRepository.get_by_id] using hhead

theorem create_card_fresh_ok (db : DB) (d : CardCreate)
    (hfresh : ∀ c ∈ db.cards, c.name ≠ d.name) :
    ∃ nc, CardRepository.create_card db d =
        .ok (nc, { db with cards := db.cards ++ [nc] }) ∧
      nc.name = d.name ∧ nc.description = d.description ∧
      nc.image_url = d.image_url ∧ nc.mana_price = d.mana_price ∧
      nc.hp = d.hp ∧ nc.attack = d.attack ∧ nc.card_type_id = d.card_type_id ∧
      (∀ c ∈ db.cards, c.id ≠ nc.id) ∧
      CardRepository.get_by_id { db with cards := db.cards ++ [nc] } nc.id =
        some ⟨nc, resolve_card_type { db with cards := db.cards ++ [nc] }
                    nc.card_type_id⟩ := by
  have hany : db.cards.any (fun c => c.name == d.name) = false := by
    rw [List.any_eq_false]
    intro c hc
    simpa using hfresh c hc
  refine ⟨⟨nextId (db.cards.map (fun c => c.id)), d.name, d.description, d.image_url,
      d.mana_price, d.hp, d.attack, d.card_type_id⟩,
    ?_, rfl, rfl, rfl, rfl, rfl, rfl, rfl,
    fun c hc => mem_ne_nextId _ _ (List.mem_map_of_mem _ hc), ?_⟩
  · simp [CardRepository.create_card, hany]
  · have hhead := head?_filter_append_singleton
      (fun c => c.id == nextId (db.cards.map (fun c => c.id)))
      db.cards
      ⟨nextId (db.cards.map (fun c => c.id)), d.name, d.description, d.image_url,
        d.mana_price, d.hp, d.attack, d.card_type_id⟩
      (fun c hc => by
        simpa using mem_ne_nextId _ _ (List.mem_map_of_mem (fun c => c.id) hc))
      (by simp)
    simp only [CardRepository.get_by_id]
    rw [hhead]
    rfl

/-- C6: a create with a fresh name (for each kind) succeeds, an immediate
`get_by_id` with the assigned id returns the created entity with every
field equal to the input, and the assigned id differs from the id of every
previously stored entity of that kind. -/
theorem create_then_get_by_id_roundtrip (db : DB)
    (td : CardTypeCreate) (cd : CardCreate)
    (htf : ∀ ct ∈ db.card_types, ct.name ≠ td.name)
    (hcf : ∀ c ∈ db.cards, c.name ≠ cd.name) :
    (∃ ct db2, CardTypeRepository.create_card_type db td = .ok (ct, db2) ∧
      CardTypeRepository.get_by_id db2 ct.id = some ct ∧
      ct.name = td.name ∧ ct.description = td.description ∧
      ct.image_url = td.image_url ∧
      ∀ old ∈ db.card_types, old.id ≠ ct.id) ∧
    (∃ c db2 lc, CardRepository.create_card db cd = .ok (c, db2) ∧
      CardRepository.get_by_id db2 c.id = some lc ∧ lc.card = c ∧
      c.name = cd.name ∧ c.description = cd.description ∧
      c.image_url = cd.image_url ∧ c.mana_price = cd.mana_price ∧
      c.hp = cd.hp ∧ c.attack = cd.attack ∧
      c.card_type_id = cd.card_type_id ∧
      ∀ old ∈ db.cards, old.id ≠ c.id) := by
  obtain ⟨nct, hcr, hn, hd, hi, hid, hget⟩ := create_card_type_fresh_ok db td htf
  obtain ⟨nc, hcr2, hn2, hd2, hi2, hm2, hh2, ha2, hct2, hid2, hget2⟩ :=
    create_card_fresh_ok db cd hcf
  exact ⟨⟨nct, _, hcr, hget, hn, hd, hi, hid⟩,
    ⟨nc, _, _, hcr2, hget2, rfl, hn2, hd2, hi2, hm2, hh2, ha2, hct2, hid2⟩⟩

/-- Witness for C6 at a concrete input: the empty database, the CardType
input "Elemental" and the Card input "Flame Imp". -/
theorem create_then_get_by_id_roundtrip_witness :
    (∃ ct db2, CardTypeRepository.create_card_type { card_types := [], cards := [] }
        ⟨"Elemental", "Fire and ice beings", none⟩ = .ok (ct, db2) ∧
      CardTypeRepository.get_by_id db2 ct.id = some ct ∧
      ct.name = "Elemental" ∧ ct.description = "Fire and ice beings" ∧
      ct.image_url = none ∧
      ∀ old ∈ ({ card_types := [], cards := [] } : DB).card_types, old.id ≠ ct.id) ∧
    (∃ c db2 lc, CardRepository.create_card { card_types := [], cards := [] }
        ⟨"Flame Imp", "A small fiery nuisance", 2, none, 30, 40, 1⟩ = .ok (c, db2) ∧
      CardRepository.get_by_id db2 c.id = some lc ∧ lc.card = c ∧
      c.name = "Flame Imp" ∧ c.description = "A small fiery nuisance" ∧
      c.image_url = none ∧ c.mana_price = 2 ∧
      c.hp = 30 ∧ c.attack = 40 ∧
      c.card_type_id = 1 ∧
      ∀ old ∈ ({ card_types := [], cards := [] } : DB).cards, old.id ≠ c.id) :=
  create_then_get_by_id_roundtrip { card_types := [], cards := [] }
    ⟨"Elemental", "Fire and ice beings", none⟩
    ⟨"Flame Imp", "A small fiery nuisance", 2, none, 30, 40, 1⟩
    (by simp) (by simp)

/-- C5: when no stored row has the requested id, the repository
`get_by_id` returns the absent marker `None` (no exception), and the
service turns that absence into `HTTPException(404)` — never a default or
empty object.  Shown for both entity kinds. -/
theorem get_by_id_miss_is_none_then_404 (db : DB) (id : Int)
    (hct : ∀ ct ∈ db.card_types, ct.id ≠ id)
    (hc : ∀ c ∈ db.cards, c.id ≠ id) :
    CardTypeRepository.get_by_id db id = none ∧
    CardTypeService.get_card_type_by_id db id =
      .error (.httpException 404 "Тип карты с таким id не найдена") ∧
    CardRepository.get_by_id db id = none ∧
    CardService.get_card_by_id db id =
      .error (.httpException 404 "Карта с таким id не найдена") := by
  have h1 : db.card_types.filter (fun ct => ct.id == id) = [] :=
    List.filter_eq_nil_iff.mpr (fun ct hmem => by simpa using hct ct hmem)
  have h2 : db.cards.filter (fun c => c.id == id) = [] :=
    List.filter_eq_nil_iff.mpr (fun c hmem => by simpa using hc c hmem)
  have hr1 : CardTypeRepository.get_by_id db id = none := by
    simp only [CardTypeRepository.get_by_id]
    rw [h1]
    rfl
  have hr2 : CardRepository.get_by_id db id = none := by
    simp only [CardRepository.get_by_id]
    rw [h2]
    rfl
  refine ⟨hr1, ?_, hr2, ?_⟩
  · simp [CardTypeService.get_card_type_by_id, hr1]
  · simp [CardService.get_card_by_id, hr2]

/-- Witness for C5 at a concrete input: the empty database and the unknown
id 999999. -/
theorem get_by_id_miss_is_none_then_404_witness :
    CardTypeRepository.get_by_id { card_types := [], cards := [] } 999999 = none ∧
    CardTypeService.get_card_type_by_id { card_types := [], cards := [] } 999999 =
      .error (.httpException 404 "Тип карты с таким id не найдена") ∧
    CardRepository.get_by_id { card_types := [], cards := [] } 999999 = none ∧
    CardService.get_card_by_id { card_types := [], cards := [] } 999999 =
      .error (.httpException 404 "Карта с таким id не найдена") :=
  get_by_id_miss_is_none_then_404 { card_types := [], cards := [] } 999999
    (by simp) (by simp)

/-- C4: any Card creation input whose `mana_price` is outside 0 to 10, or
`hp` outside 0 to 100, or `attack` outside 0 to 100, fails pydantic
validation, so the route returns a validation error before any repository
call and the database state is unchanged — no out-of-range value ever
reaches storage. -/
theorem card_numeric_bounds_rejected_before_storage (db : DB)
    (name description : String) (mana_price : Int) (image_url : Option String)
    (hp attack card_type_id : Int)
    (hout : mana_price < 0 ∨ 10 < mana_price ∨ hp < 0 ∨ 100 < hp ∨
      attack < 0 ∨ 100 < attack) :
    CardCreate.validate name description mana_price image_url hp attack
      card_type_id = none ∧
    create_card_endpoint db name description mana_price image_url hp attack
      card_type_id = (.error .validationError, db) := by
  have hcond : ¬(5 ≤ name.length ∧ name.length ≤ 100 ∧
      2 ≤ description.length ∧ description.length ≤ 500 ∧
      0 ≤ mana_price ∧ mana_price ≤ 10 ∧
      0 ≤ hp ∧ hp ≤ 100 ∧
      0 ≤ attack ∧ attack ≤ 100) := by
    intro h
    obtain ⟨-, -, -, -, h5, h6, h7, h8, h9, h10⟩ := h
    omega
  have hv : CardCreate.validate name description mana_price image_url hp attack
      card_type_id = none := by
    simp only [CardCreate.validate, if_neg hcond]
  exact ⟨hv, by simp [create_card_endpoint, hv]⟩

/-- Witness for C4 at a concrete input: `mana_price = 11` on the empty
database (the other fields valid). -/
theorem card_numeric_bounds_rejected_before_storage_witness :
    CardCreate.validate "Flame Imp" "A small fiery nuisance" 11 none 30 40 1
      = none ∧
    create_card_endpoint { card_types := [], cards := [] }
      "Flame Imp" "A small fiery nuisance" 11 none 30 40 1 =
      (.error .validationError, { card_types := [], cards := [] }) :=
  card_numeric_bounds_rejected_before_storage { card_types := [], cards := [] }
    "Flame Imp" "A small fiery nuisance" 11 none 30 40 1 (by omega)

/-- C10: a CardType creation body passes pydantic validation exactly when
its `name` has 5 to 100 characters and its `description` 5 to 500; any
body outside these bounds makes the route return a validation error
before any repository call, with the database state unchanged. -/
theorem card_type_length_bounds_enforced (db : DB)
    (name description : String) (image_url : Option String) :
    ((CardTypeCreate.validate name description image_url).isSome ↔
      (5 ≤ name.length ∧ name.length ≤ 100 ∧
        5 ≤ description.length ∧ description.length ≤ 500)) ∧
    (¬(5 ≤ name.length ∧ name.length ≤ 100 ∧
        5 ≤ description.length ∧ description.length ≤ 500) →
      create_card_type_endpoint db name description image_url =
        (.error .validationError, db)) := by
  constructor
  · by_cases h : 5 ≤ name.length ∧ name.length ≤ 100 ∧
        5 ≤ description.length ∧ description.length ≤ 500
    · simp [CardTypeCreate.validate, if_pos h, h]
    · simp [CardTypeCreate.validate, if_neg h, h]
  · intro h
    have hv : CardTypeCreate.validate name description image_url = none := by
      simp only [CardTypeCreate.validate, if_neg h]
    simp [create_card_type_endpoint, hv]

/-- Witness for C10 at a concrete input: the three-character name "abc"
is rejected on the empty database. -/
theorem card_type_length_bounds_enforced_witness :
    create_card_type_endpoint { card_types := [], cards := [] }
      "abc" "Fire and ice beings" none =
      (.error .validationError, { card_types := [], cards := [] }) :=
  (card_type_length_bounds_enforced { card_types := [], cards := [] }
    "abc" "Fire and ice beings" none).2 (by decide)

/-- C8: `get_by_card_type` returns exactly the projections of the cards
whose `card_type_id` equals the requested parent id, with `total` equal to
the item count; the result is independent of the `card_types` table (the
parent's existence is never checked), and when no card matches the result
is the empty envelope rather than an error. -/
theorem list_by_parent_exact_filter (db : DB) (cardtype_id : Int) :
    ((CardService.get_by_card_type db cardtype_id).products =
      (db.cards.filter (fun c => c.card_type_id == cardtype_id)).map
        CardResponse.model_validate) ∧
    (CardService.get_by_card_type db cardtype_id).total =
      (CardService.get_by_card_type db cardtype_id).products.length ∧
    (∀ types1 types2 : List CardType,
      CardService.get_by_card_type { card_types := types1, cards := db.cards }
          cardtype_id =
        CardService.get_by_card_type { card_types := types2, cards := db.cards }
          cardtype_id) ∧
    ((∀ c ∈ db.cards, c.card_type_id ≠ cardtype_id) →
      (CardService.get_by_card_type db cardtype_id).products = []) := by
  refine ⟨?_, rfl, ?_, fun h => ?_⟩
  · simp only [CardService.get_by_card_type, CardRepository.get_by_card_type,
      List.map_map]
    rfl
  · intro t1 t2
    simp only [CardService.get_by_card_type, CardRepository.get_by_card_type,
      List.map_map]
    rfl
  · have hf : db.cards.filter (fun c => c.card_type_id == cardtype_id) = [] :=
      List.filter_eq_nil_iff.mpr (fun c hc => by simpa using h c hc)
    simp only [CardService.get_by_card_type, CardRepository.get_by_card_type]
    rw [hf]
    rfl

/-- Witness for C8 at a concrete input: a database holding one card of
type 1; parent id 7 matches nothing and yields the empty list. -/
theorem list_by_parent_exact_filter_witness :
    (CardService.get_by_card_type
      { card_types := [⟨1, "Elemental", "Fire and ice beings", none⟩],
        cards := [⟨1, "Flame Imp", "A small fiery nuisance", none, 2, 30, 40, 1⟩] }
      7).products = [] :=
  (list_by_parent_exact_filter
    { card_types := [⟨1, "Elemental", "Fire and ice beings", none⟩],
      cards := [⟨1, "Flame Imp", "A small fiery nuisance", none, 2, 30, 40, 1⟩] }
    7).2.2.2 (by decide)

/-- C9: every `CardLoaded` produced by a Card-reading repository operation
(`get_all`, `get_by_card_type`, `get_by_id`) carries its `card_type`
relationship already resolved from the same read — equal to the joined
lookup of its foreign key — and whenever that lookup succeeds the resolved
row is a stored CardType whose id equals the card's `card_type_id`. -/
theorem card_reads_resolve_card_type_eagerly (db : DB) (lc : CardLoaded)
    (hread : lc ∈ CardRepository.get_all db ∨
      (∃ tid, lc ∈ CardRepository.get_by_card_type db tid) ∨
      (∃ i, CardRepository.get_by_id db i = some lc)) :
    lc.card_type = resolve_card_type db lc.card.card_type_id ∧
    (∀ t, lc.card_type = some t →
      t ∈ db.card_types ∧ t.id = lc.card.card_type_id) := by
  have hmain : lc.card_type = resolve_card_type db lc.card.card_type_id := by
    rcases hread with h | ⟨tid, h⟩ | ⟨i, h⟩
    · obtain ⟨c, hc, rfl⟩ := List.mem_map.mp h
      rfl
    · obtain ⟨c, hc, rfl⟩ := List.mem_map.mp h
      rfl
    · simp only [CardRepository.get_by_id, Option.map_eq_some'] at h
      obtain ⟨c, hc, rfl⟩ := h
      rfl
  refine ⟨hmain, fun t ht => ?_⟩
  rw [hmain] at ht
  have hmem := List.mem_filter.mp (mem_of_head?_eq_some ht)
  exact ⟨hmem.1, by simpa using hmem.2⟩

/-- Witness for C9 at a concrete input: the joined read of "Flame Imp"
out of a one-type, one-card database, reached through `get_all`, carries
the resolved "Elemental" row. -/
theorem card_reads_resolve_card_type_eagerly_witness :
    (some (⟨1, "Elemental", "Fire and ice beings", none⟩ : CardType) :
        Option CardType) =
      resolve_card_type
        { card_types := [⟨1, "Elemental", "Fire and ice beings", none⟩],
          cards := [⟨1, "Flame Imp", "A small fiery nuisance", none, 2, 30, 40, 1⟩] }
        1 :=
  (card_reads_resolve_card_type_eagerly
    { card_types := [⟨1, "Elemental", "Fire and ice beings", none⟩],
      cards := [⟨1, "Flame Imp", "A small fiery nuisance", none, 2, 30, 40, 1⟩] }
    ⟨⟨1, "Flame Imp", "A small fiery nuisance", none, 2, 30, 40, 1⟩,
      some ⟨1, "Elemental", "Fire and ice beings", none⟩⟩
    (Or.inl (by decide))).1

/-- C3 counterexample: two databases whose CardType with id 1 differs in
every descriptive field ("Elemental" versus "Undead") produce exactly the
same create response and the same subsequent `get_by_id` response for the
new card, so the responses contain no nested representation of the
referenced CardType — only the raw foreign key. -/
theorem card_response_independent_of_card_type_fields :
    ((create_card_endpoint
        { card_types := [⟨1, "Elemental", "Fire and ice beings", none⟩],
          cards := [] }
        "Flame Imp" "A small fiery nuisance" 2 none 30 40 1).1 =
      (create_card_endpoint
        { card_types := [⟨1, "Undead", "Rotting shamblers", none⟩],
          cards := [] }
        "Flame Imp" "A small fiery nuisance" 2 none 30 40 1).1) ∧
    (CardService.get_card_by_id
        (create_card_endpoint
          { card_types := [⟨1, "Elemental", "Fire and ice beings", none⟩],
            cards := [] }
          "Flame Imp" "A small fiery nuisance" 2 none 30 40 1).2 1 =
      CardService.get_card_by_id
        (create_card_endpoint
          { card_types := [⟨1, "Undead", "Rotting shamblers", none⟩],
            cards := [] }
          "Flame Imp" "A small fiery nuisance" 2 none 30 40 1).2 1) ∧
    ("Elemental" : String) ≠ "Undead" :=
  ⟨rfl, rfl, by decide⟩

/-- C3 as amended: for a Card created with a `card_type_id` naming an
existing CardType (and a fresh name), the create response carries the
reference only as the raw foreign-key id, equal to the input's
`card_type_id`, and the subsequent `get_by_id` returns that same
response. -/
theorem create_card_response_contains_only_fk_id (db : DB) (cd : CardCreate)
    (_hvalid : ∃ ct ∈ db.card_types, ct.id = cd.card_type_id)
    (hfresh : ∀ c ∈ db.cards, c.name ≠ cd.name) :
    ∃ r db2, CardService.create_card db cd = .ok (r, db2) ∧
      r.card_type_id = cd.card_type_id ∧
      CardService.get_card_by_id db2 r.id = .ok r := by
  obtain ⟨nc, hcr, hn, hd, hi, hm, hh, ha, hct, hid, hget⟩ :=
    create_card_fresh_ok db cd hfresh
  refine ⟨CardResponse.model_validate nc, { db with cards := db.cards ++ [nc] },
    ?_, ?_, ?_⟩
  · simp [CardService.create_card, hcr]
  · simpa [CardResponse.model_validate] using hct
  · show CardService.get_card_by_id _ nc.id = _
    simp [CardService.get_card_by_id, hget]

/-- Witness for the amended C3 at a concrete input: "Flame Imp" created
against the stored "Elemental" type. -/
theorem create_card_response_contains_only_fk_id_witness :
    ∃ r db2, CardService.create_card
        { card_types := [⟨1, "Elemental", "Fire and ice beings", none⟩],
          cards := [] }
        ⟨"Flame Imp", "A small fiery nuisance", 2, none, 30, 40, 1⟩ =
        .ok (r, db2) ∧
      r.card_type_id = 1 ∧
      CardService.get_card_by_id db2 r.id = .ok r :=
  create_card_response_contains_only_fk_id
    { card_types := [⟨1, "Elemental", "Fire and ice beings", none⟩], cards := [] }
    ⟨"Flame Imp", "A small fiery nuisance", 2, none, 30, 40, 1⟩
    ⟨⟨1, "Elemental", "Fire and ice beings", none⟩, by simp, rfl⟩
    (by simp)

/-- C7 counterexample: `get_by_id` for the stored "Elemental" type returns
exactly the same response — name, description, image_url and id only —
whether the type has zero cards or one card referencing it; the response
carries no card list. -/
theorem card_type_response_ignores_card_list :
    CardTypeService.get_card_type_by_id
        { card_types := [⟨1, "Elemental", "Fire and ice beings", none⟩],
          cards := [] } 1 =
      .ok ⟨"Elemental", "Fire and ice beings", none, 1⟩ ∧
    CardTypeService.get_card_type_by_id
        { card_types := [⟨1, "Elemental", "Fire and ice beings", none⟩],
          cards := [⟨1, "Flame Imp", "A small fiery nuisance", none, 2, 30, 40, 1⟩] }
        1 =
      .ok ⟨"Elemental", "Fire and ice beings", none, 1⟩ :=
  ⟨rfl, rfl⟩

/-- C7 as amended: creating a CardType with a fresh name yields a response
whose generated id differs from every stored id, a subsequent `get_by_id`
with that id returns the identical response, and its name and description
equal the input's; the response contains no card list field. -/
theorem create_card_type_then_get_same_fields (db : DB) (td : CardTypeCreate)
    (hfresh : ∀ ct ∈ db.card_types, ct.name ≠ td.name) :
    ∃ r db2, CardTypeService.create_card_type db td = .ok (r, db2) ∧
      (∀ ct ∈ db.card_types, ct.id ≠ r.id) ∧
      CardTypeService.get_card_type_by_id db2 r.id = .ok r ∧
      r.name = td.name ∧ r.description = td.description := by
  obtain ⟨nct, hcr, hn, hd, hi, hid, hget⟩ := create_card_type_fresh_ok db td hfresh
  refine ⟨CardTypeResponse.model_validate nct,
    { db with card_types := db.card_types ++ [nct] }, ?_, ?_, ?_, ?_, ?_⟩
  · simp [CardTypeService.create_card_type, hcr]
  · intro ct hct
    simpa [CardTypeResponse.model_validate] using hid ct hct
  · show CardTypeService.get_card_type_by_id _ nct.id = _
    simp [CardTypeService.get_card_type_by_id, hget]
  · simpa [CardTypeResponse.model_validate] using hn
  · simpa [CardTypeResponse.model_validate] using hd

/-- Witness for the amended C7 at a concrete input: "Elemental" created on
the empty database. -/
theorem create_card_type_then_get_same_fields_witness :
    ∃ r db2, CardTypeService.create_card_type { card_types := [], cards := [] }
        ⟨"Elemental", "Fire and ice beings", none⟩ = .ok (r, db2) ∧
      (∀ ct ∈ ({ card_types := [], cards := [] } : DB).card_types, ct.id ≠ r.id) ∧
      CardTypeService.get_card_type_by_id db2 r.id = .ok r ∧
      r.name = "Elemental" ∧ r.description = "Fire and ice beings" :=
  create_card_type_then_get_same_fields { card_types := [], cards := [] }
    ⟨"Elemental", "Fire and ice beings", none⟩ (by simp)
